import Mathlib

/-!
Shallow embedding of `src/app.py` (DocHunter recruiter dashboard).

Layers:
* Python string primitives used by the script (`strip`, `split(',')`,
  case-insensitive substring containment, `str()` coercion of NaN).
* The load pipeline `backup_data` / `load_data` over a dataframe model
  (app.py lines 7-56).
* The filter pipeline over physician records (app.py lines 161-196).
* The flag-note session store and the flagged-subset export
  (app.py lines 227-245).
-/

/-- Python's `str.strip` on a list of characters: drop leading and trailing
whitespace. -/
def stripList (l : List Char) : List Char :=
  ((l.dropWhile Char.isWhitespace).reverse.dropWhile Char.isWhitespace).reverse

/-- Python's `s.strip()`. -/
def pyStrip (s : String) : String :=
  String.mk (stripList s.toList)

/-- Python's `x.split(',')` on characters: `"".split(',')` is `[""]`,
`",".split(',')` is `["", ""]`. -/
def splitCommaL : List Char → List (List Char)
  | [] => [[]]
  | c :: t =>
    match splitCommaL t with
    | [] => [[]]
    | h :: r => if c = ',' then [] :: h :: r else (c :: h) :: r

/-- Python's `x.split(',')`. -/
def pySplitComma (s : String) : List String :=
  (splitCommaL s.toList).map String.mk

/-- `[s.strip() for s in x.split(',') if s.strip()]` (app.py line 54): the
value kept and the truthiness test are the same expression `s.strip()`, so
this is map-strip followed by dropping empty results. -/
def licenseStatesList (x : String) : List String :=
  ((pySplitComma x).map pyStrip).filter (fun t => t ≠ "")

/-- Characters of a string, lowercased (Python `str.lower` for the ASCII
state codes and specialty names this app handles). -/
def toLowerL (s : String) : List Char :=
  s.toList.map Char.toLower

/-- Substring containment on character lists (Python's `needle in hay`). -/
def containsSub (needle : List Char) : List Char → Bool
  | [] => needle.isEmpty
  | c :: rest => needle.isPrefixOf (c :: rest) || containsSub needle rest

/-- `Series.str.contains(needle, case=False)` on one non-null value:
case-insensitive substring containment. -/
def pyContainsCI (needle hay : String) : Bool :=
  containsSub (toLowerL needle) (toLowerL hay)

/-! ### The dataframe model for `load_data` -/

/-- A CSV cell as pandas sees it: `none` is NaN (empty/missing field). -/
abbrev Cell := Option String

/-- `str(x)` as applied by `astype(str)`: NaN prints as `"nan"`, any other
cell is already its string. -/
def pyStr (c : Cell) : String := c.getD "nan"

/-- A pandas dataframe read from CSV: column names plus rows of cells. -/
structure Table where
  cols : List String
  rows : List (List Cell)
deriving DecidableEq

/-- Index of a column label in the header. -/
def idxOf? (c : String) : List String → Option Nat
  | [] => none
  | d :: rest => if d = c then some 0 else (idxOf? c rest).map (fun i => i + 1)

/-- `df[c]`: the column as a list of cells; `none` when the label is absent
(in pandas that access raises `KeyError`). -/
def Table.getCol? (t : Table) (c : String) : Option (List Cell) :=
  (idxOf? c t.cols).map (fun i => t.rows.map (fun row => row.getD i none))

/-- Outcome of `backup_data()` (app.py lines 7-18): returns the destination
path, or raises — `FileNotFoundError` when `scored_physicians.csv` is
missing, any other exception (e.g. an `OSError` from `os.makedirs` or
`shutil.copy2`) otherwise. -/
inductive BackupOutcome
  | ok (dst : String)
  | raiseFileNotFound
  | raiseOther
deriving DecidableEq

/-- Outcome of `pd.read_csv("scored_physicians.csv")` (app.py line 29). -/
inductive ReadOutcome
  | fileNotFound
  | emptyData
  | parseError
  | ok (df : Table)
deriving DecidableEq

/-- The terminations of `load_data` other than success: the four
user-visible `st.error` + `st.stop` paths (app.py lines 37-49), and an
uncaught `KeyError` escaping after the `try` block ends (lines 51-52). -/
inductive LoadErr
  | sourceNotFound
  | sourceEmpty
  | unexpected
  | missingColumns (cols : List String)
  | keyError (col : String)
deriving DecidableEq

/-- Result of a successful `load_data`: the dataframe together with its
string-coerced columns and the derived `license_states_list` column. -/
structure LoadedData where
  df : Table
  license_states : List String
  locum_keywords : List String
  license_states_list : List (List String)
deriving DecidableEq

/-- `required_columns` (app.py lines 32-35). -/
def requiredColumns : List String :=
  ["npi", "full_name", "primary_specialty", "license_states",
   "multi_state_licensed", "locum_candidate_flag", "recruiter_priority_score"]

/-- `load_data` (app.py lines 22-56).  Inside the `try` block: the backup
runs first, then `pd.read_csv`, then column validation; `FileNotFoundError`,
`EmptyDataError` and any other exception are each caught and turn into
`st.error` + `st.stop`.  After the `try` block: `license_states` and
`locum_keywords` are coerced with `astype(str)` (a missing label raises an
uncaught `KeyError` here), then `license_states_list` is derived.  The
`.fillna('')` on line 53 acts on the already string-coerced column, which
holds no NaN, so it changes nothing. -/
def load_data (backup : BackupOutcome) (read : ReadOutcome) :
    Except LoadErr LoadedData :=
  match backup with
  | .raiseFileNotFound => .error .sourceNotFound
  | .raiseOther => .error .unexpected
  | .ok _ =>
    match read with
    | .fileNotFound => .error .sourceNotFound
    | .emptyData => .error .sourceEmpty
    | .parseError => .error .unexpected
    | .ok df =>
      let missing := requiredColumns.filter (fun c => !(df.cols.contains c))
      if missing.isEmpty then
        match df.getCol? "license_states" with
        | none => .error (.keyError "license_states")
        | some ls =>
          match df.getCol? "locum_keywords" with
          | none => .error (.keyError "locum_keywords")
          | some lk =>
            let ls' := ls.map pyStr
            .ok { df := df, license_states := ls',
                  locum_keywords := lk.map pyStr,
                  license_states_list := ls'.map licenseStatesList }
      else .error (.missingColumns missing)

/-- The header of a well-formed source file: the required columns plus the
extra columns the script reads (`status`, `phone`, `practice_address`,
`locum_keywords`). -/
def fullCols : List String :=
  requiredColumns ++ ["status", "phone", "practice_address", "locum_keywords"]

/-- A concrete well-formed source table with one fully populated row. -/
def goodTable : Table :=
  { cols := fullCols,
    rows := [[some "1003000126", some "Jane Doe", some "Emergency Medicine",
              some "CA, NY", some "True", some "True", some "85",
              some "ACTIVE", some "555-0100", some "1 Main St",
              some "locum tenens"]] }

/-- A source table whose second row has an empty (NaN) `license_states`
field. -/
def nanTable : Table :=
  { cols := fullCols,
    rows := [[some "1003000126", some "Jane Doe", some "Emergency Medicine",
              some "CA, NY", some "True", some "True", some "85",
              some "ACTIVE", some "555-0100", some "1 Main St",
              some "locum tenens"],
             [some "1003000127", some "John Roe", some "Cardiology",
              none, some "False", some "False", some "40",
              some "ACTIVE", some "555-0101", some "2 Main St",
              some "none"]] }

example : licenseStatesList "CA, NY" = ["CA", "NY"] := by decide
example : licenseStatesList "" = [] := by decide
example : licenseStatesList "nan" = ["nan"] := by decide
example : (load_data (.ok "backup/x.csv") (.ok goodTable)).toOption.isSome = true := by decide

/-! ### The filter pipeline (app.py lines 161-196) -/

/-- One physician row as the filter pipeline sees it after `load_data`:
string fields hold the already-coerced values; `primary_specialty` and
`status` stay nullable because the pipeline handles NaN there explicitly
(`na=False` in `str.contains`, `== 'ACTIVE'`). -/
structure Physician where
  npi : String
  full_name : String
  primary_specialty : Option String
  status : Option String
  phone : String
  practice_address : String
  license_states : String
  license_states_list : List String
  multi_state_licensed : Bool
  locum_candidate_flag : Bool
  recruiter_priority_score : Int
  locum_keywords : String
deriving DecidableEq

/-- The sidebar selections for one rendering pass. -/
structure FilterCriteria where
  specialty_filter : String
  selected_states : List String
  active_only : Bool
  multi_state_only : Bool
  locum_only : Bool
  min_score : Int
deriving DecidableEq

/-- Stage 1 (app.py lines 165-166): when the radio selects
`'Emergency Room Doctors'`, keep rows whose `primary_specialty` contains
`'Emergency'` case-insensitively (`na=False`: a NaN specialty is dropped);
otherwise keep everything. -/
def specialtyPred (c : FilterCriteria) (r : Physician) : Bool :=
  if c.specialty_filter = "Emergency Room Doctors" then
    match r.primary_specialty with
    | none => false
    | some s => pyContainsCI "Emergency" s
  else true

/-- Stage 2 (app.py line 181): `explode().isin(selected).groupby(level=0).any()`
keeps a row iff some element of its `license_states_list` is among the
selected states; an empty list explodes to NaN, `isin` is false on NaN, so
the row is dropped. -/
def statesPred (c : FilterCriteria) (r : Physician) : Bool :=
  r.license_states_list.any (fun s => c.selected_states.contains s)

/-- Stage 3 (app.py lines 190-191): `df['status'] == 'ACTIVE'` when
active-only is checked. -/
def activePred (c : FilterCriteria) (r : Physician) : Bool :=
  !c.active_only || r.status == some "ACTIVE"

/-- Stage 4 (app.py lines 192-193). -/
def multiPred (c : FilterCriteria) (r : Physician) : Bool :=
  !c.multi_state_only || r.multi_state_licensed

/-- Stage 5 (app.py lines 194-195). -/
def locumPred (c : FilterCriteria) (r : Physician) : Bool :=
  !c.locum_only || r.locum_candidate_flag

/-- Stage 6 (app.py line 196): `recruiter_priority_score >= min_score`. -/
def scorePred (c : FilterCriteria) (r : Physician) : Bool :=
  c.min_score ≤ r.recruiter_priority_score

/-- The six row predicates in the order the script applies them. -/
def stagePreds (c : FilterCriteria) : List (Physician → Bool) :=
  [specialtyPred c, statesPred c, activePred c, multiPred c, locumPred c,
   scorePred c]

/-- Apply a list of boolean row filters in order (each stage narrows the
previous stage's result, as the successive `df = df[...]` lines do). -/
def applyStages (ps : List (Physician → Bool)) (l : List Physician) :
    List Physician :=
  ps.foldl (fun acc p => acc.filter p) l

/-- `filter_data` (app.py lines 161-168): the specialty stage alone. -/
def filter_data (c : FilterCriteria) (l : List Physician) : List Physician :=
  l.filter (specialtyPred c)

/-- The license-state membership stage alone (app.py line 181). -/
def stateFilter (selected : List String) (l : List Physician) :
    List Physician :=
  l.filter (fun r => r.license_states_list.any (fun s => selected.contains s))

/-- `sorted(set(state for sublist in df['license_states_list'] for state in
sublist))` (app.py line 175): every state occurring in the record set,
deduplicated and sorted; this is also the default multiselect value. -/
def allKnownStates (l : List Physician) : List String :=
  (((l.map Physician.license_states_list).flatten).dedup).mergeSort
    (fun a b => a ≤ b)

/-- The whole pipeline, app.py lines 161-196: specialty, then license
state, then the advanced filters. -/
def applyFilters (c : FilterCriteria) (l : List Physician) : List Physician :=
  applyStages (stagePreds c) l

example :
    applyFilters
      { specialty_filter := "All Doctors", selected_states := ["CA"],
        active_only := true, multi_state_only := false, locum_only := false,
        min_score := 20 } [] = [] := by decide

/-! ### The flag-note store and the export (app.py lines 199-245) -/

/-- `st.session_state.flagged`: a dict from `npi` to note text, modelled as
an association list in insertion order (a Python dict keeps the position of
an existing key on overwrite and appends new keys). -/
abbrev Store := List (String × String)

/-- `flagged.get(k, default)`-style lookup; `some` iff `k in flagged`. -/
def storeLookup (st : Store) (k : String) : Option String :=
  match st with
  | [] => none
  | kv :: rest => if kv.1 = k then some kv.2 else storeLookup rest k

/-- Dict assignment `flagged[k] = v`: overwrite in place or append. -/
def storeInsert (st : Store) (k v : String) : Store :=
  match st with
  | [] => [(k, v)]
  | kv :: rest => if kv.1 = k then (k, v) :: rest else kv :: storeInsert rest k v

/-- The per-card note widget handler (app.py lines 229-230):
`if note.strip(): st.session_state.flagged[row.npi] = note.strip()`.
A blank or whitespace-only note is falsy, so nothing at all happens —
in particular no entry is removed. -/
def setFlagNote (st : Store) (k text : String) : Store :=
  if (pyStrip text).isEmpty then st else storeInsert st k (pyStrip text)

/-- `flagged_data` (app.py lines 235-236): restrict the visible subset to
rows whose `npi` is a key of the store, and attach the note as `flag_note`
via `flagged.get(n, "")`. -/
def flaggedData (l : List Physician) (st : Store) :
    List (Physician × String) :=
  (l.filter (fun r => (storeLookup st r.npi).isSome)).map
    (fun r => (r, (storeLookup st r.npi).getD ""))

/-- One rendering pass of the filter section over the app state
`(records, store)`: filtering recomputes the visible rows and touches
nothing else (app.py lines 161-196 only reassign the local `df`). -/
def filterStep (c : FilterCriteria) (s : List Physician × Store) :
    List Physician × Store :=
  (applyFilters c s.1, s.2)

/-- The AnnotationStore invariant from the spec: every stored value is a
non-empty, whitespace-trimmed note string. -/
def StoreInv (st : Store) : Prop :=
  ∀ kv ∈ st, kv.2 ≠ "" ∧ pyStrip kv.2 = kv.2

instance : DecidablePred StoreInv := fun st =>
  List.decidableBAll _ st

/-- Quote one CSV field the way pandas' `to_csv` does (`csv.QUOTE_MINIMAL`):
wrap in double quotes, doubling embedded quotes, iff the field contains a
comma, a quote, or a line break. -/
def csvCell (s : String) : String :=
  if s.toList.any (fun c => c = ',' || c = '"' || c = '\n' || c = '\r') then
    "\"" ++ String.mk (s.toList.flatMap
      (fun c => if c = '"' then ['"', '"'] else [c])) ++ "\""
  else s

/-- One CSV line. -/
def csvLine (cells : List String) : String :=
  String.intercalate "," (cells.map csvCell)

/-- `DataFrame.to_csv(index=False)`: header line then one line per row,
each terminated by a newline. -/
def toCsv (header : List String) (rows : List (List String)) : String :=
  (csvLine header :: rows.map csvLine).foldr
    (fun line acc => line ++ "\n" ++ acc) ""

/-- `to_csv` renders a boolean cell as Python's `str(bool)`. -/
def pyBoolStr (b : Bool) : String :=
  if b then "True" else "False"

/-- `to_csv` renders the Python list stored in `license_states_list` via
`str(list)`, e.g. `['CA', 'NY']`. -/
def pyListRepr (l : List String) : String :=
  "[" ++ String.intercalate ", " (l.map (fun s => "'" ++ s ++ "'")) ++ "]"

/-- A NaN cell serializes as the empty field. -/
def optCellStr (o : Option String) : String := o.getD ""

/-- The columns of `flagged_data` in dataframe order: the source columns,
the `license_states_list` column appended at load time, and the `flag_note`
column appended at line 236. -/
def exportColumns : List String :=
  ["npi", "full_name", "primary_specialty", "status", "phone",
   "practice_address", "license_states", "multi_state_licensed",
   "locum_candidate_flag", "recruiter_priority_score", "locum_keywords",
   "license_states_list", "flag_note"]

/-- The cells of one exported row, in `exportColumns` order. -/
def exportRowCells (r : Physician) (note : String) : List String :=
  [r.npi, r.full_name, optCellStr r.primary_specialty, optCellStr r.status,
   r.phone, r.practice_address, r.license_states,
   pyBoolStr r.multi_state_licensed, pyBoolStr r.locum_candidate_flag,
   toString r.recruiter_priority_score, r.locum_keywords,
   pyListRepr r.license_states_list, note]

/-- `flagged_data.to_csv(index=False)` (app.py line 242): the download
serializes every column of `flagged_data`. -/
def exportFlaggedCsv (l : List Physician) (st : Store) : String :=
  toCsv exportColumns ((flaggedData l st).map (fun q => exportRowCells q.1 q.2))

/-- `.encode('utf-8')` (app.py line 242). -/
def exportFlaggedBytes (l : List Physician) (st : Store) : ByteArray :=
  (exportFlaggedCsv l st).toUTF8

/-- `display_columns` (app.py line 237): the five display columns, restricted
to those present in `flagged_data`. -/
def displayColumns (cols : List String) : List String :=
  (["full_name", "primary_specialty", "license_states",
    "recruiter_priority_score", "flag_note"]).filter
    (fun c => cols.contains c)

/-- Modelled from the spec's words for the refinement check of the export
claim: a CSV holding only the five display columns of each flagged row. -/
def claimedExportCsv (l : List Physician) (st : Store) : String :=
  toCsv (displayColumns exportColumns)
    ((flaggedData l st).map (fun q =>
      [q.1.full_name, optCellStr q.1.primary_specialty, q.1.license_states,
       toString q.1.recruiter_priority_score, q.2]))

/-- Everything before the first line break of a string. -/
def firstLine (s : String) : String :=
  String.mk (s.toList.takeWhile (fun c => c ≠ '\n'))

/-! ### Helper lemmas -/

theorem idxOf?_eq_none_of_not_mem {c : String} :
    ∀ {l : List String}, c ∉ l → idxOf? c l = none
  | [], _ => rfl
  | d :: rest, h => by
    have hd : ¬ d = c := fun hdc => h (hdc ▸ List.mem_cons_self d rest)
    have hr : c ∉ rest := fun hc => h (List.mem_cons_of_mem d hc)
    simp [idxOf?, hd, idxOf?_eq_none_of_not_mem hr]

theorem idxOf?_isSome_of_mem {c : String} :
    ∀ {l : List String}, c ∈ l → (idxOf? c l).isSome = true := by
  intro l
  induction l with
  | nil => intro h; cases h
  | cons d rest ih =>
    intro h
    by_cases hd : d = c
    · simp [idxOf?, hd]
    · have : c ∈ rest := by
        cases h with
        | head => exact absurd rfl hd
        | tail _ h' => exact h'
      have := ih this
      simp [idxOf?, hd]
      cases hi : idxOf? c rest with
      | none => rw [hi] at this; simp at this
      | some i => simp

/-! ### Claim C1 -/

/-- Claim C1 (code_bug evidence): the backup step is not best-effort.
`backup_data()` runs inside `load_data`'s `try` block, so when the backup
copy raises, the handlers at app.py lines 41-49 call `st.error` and
`st.stop` and the load never returns the parsed record set — even though
the very same source table loads fine when the backup succeeds. -/
theorem c1_backup_failure_aborts_load :
    load_data .raiseOther (.ok goodTable) = .error .unexpected ∧
    load_data .raiseFileNotFound (.ok goodTable) = .error .sourceNotFound ∧
    (load_data (.ok "backup/scored_physicians_20250101_000000.csv")
        (.ok goodTable)).toOption.isSome = true := by
  exact ⟨rfl, rfl, by decide⟩

/-! ### Claim C2 -/

/-- Claim C2 (code_bug evidence): a missing (NaN) `license_states` cell does
not yield an empty sequence.  Because `astype(str)` (app.py line 51) runs
before `.fillna('')` (line 53), NaN is first coerced to the string `"nan"`,
and the derived list for such a row is `["nan"]`, not `[]`; the populated
row of the same table splits correctly. -/
theorem c2_missing_license_states_yields_nan :
    (load_data (.ok "backup/scored_physicians_20250101_000000.csv")
        (.ok nanTable)).toOption.map LoadedData.license_states_list =
      some [["CA", "NY"], ["nan"]] ∧ (["nan"] : List String) ≠ [] := by
  exact ⟨by decide, by decide⟩

/-! ### Claim C10 -/

/-- Claim C10: a source file that has every required column but no
`locum_keywords` column passes validation, yet the normalization
`df['locum_keywords'].astype(str)` at app.py line 52 sits after the guarded
`try` block, so the column access raises an uncaught `KeyError` instead of
one of the four user-visible load-error paths. -/
theorem c10_missing_locum_keywords_keyerror (dst : String) (t : Table)
    (hreq : ∀ c ∈ requiredColumns, c ∈ t.cols)
    (hlk : "locum_keywords" ∉ t.cols) :
    load_data (.ok dst) (.ok t) = .error (.keyError "locum_keywords") := by
  have h1 : requiredColumns.filter (fun c => !(t.cols.contains c)) = [] := by
    refine List.filter_eq_nil_iff.mpr (fun a ha => ?_)
    simp [hreq a ha]
  have hls : "license_states" ∈ t.cols :=
    hreq "license_states" (by decide)
  obtain ⟨i, hi⟩ : ∃ i, idxOf? "license_states" t.cols = some i := by
    have := idxOf?_isSome_of_mem hls
    cases h : idxOf? "license_states" t.cols with
    | none => rw [h] at this; simp at this
    | some i => exact ⟨i, rfl⟩
  have h2 : t.getCol? "license_states" =
      some (t.rows.map (fun row => row.getD i none)) := by
    unfold Table.getCol?
    rw [hi]
    rfl
  have h3 : t.getCol? "locum_keywords" = none := by
    unfold Table.getCol?
    rw [idxOf?_eq_none_of_not_mem hlk]
    rfl
  simp only [load_data, h1, List.isEmpty_nil, if_true, h2, h3]

/-- A concrete source table with exactly the required columns and one row. -/
def reqOnlyTable : Table :=
  { cols := requiredColumns,
    rows := [[some "1003000126", some "Jane Doe", some "Emergency Medicine",
              some "CA", some "True", some "True", some "85"]] }

/-- Witness for C10 at a concrete table. -/
theorem c10_missing_locum_keywords_keyerror_witness :
    (∀ c ∈ requiredColumns, c ∈ reqOnlyTable.cols) ∧
    "locum_keywords" ∉ reqOnlyTable.cols ∧
    load_data (.ok "backup/scored_physicians_20250101_000000.csv")
      (.ok reqOnlyTable) = .error (.keyError "locum_keywords") :=
  ⟨by decide, by decide,
    c10_missing_locum_keywords_keyerror _ _ (by decide) (by decide)⟩

/-! ### Filter pipeline lemmas -/

/-- Folding the stage filters equals one filter by the conjunction of the
stage predicates. -/
theorem applyStages_eq_filter_all (ps : List (Physician → Bool)) :
    ∀ l : List Physician,
      applyStages ps l = l.filter (fun r => ps.all (fun p => p r)) := by
  induction ps with
  | nil => intro l; simp [applyStages]
  | cons p ps ih =>
    intro l
    have h0 : applyStages (p :: ps) l = applyStages ps (l.filter p) := rfl
    rw [h0, ih, List.filter_filter]
    refine List.filter_congr (fun a _ => ?_)
    simp [List.all_cons, Bool.and_comm]

/-- `List.all` only depends on the multiset of elements. -/
theorem all_of_perm {α : Type} {l₁ l₂ : List α} (h : l₁.Perm l₂)
    (f : α → Bool) : l₁.all f = l₂.all f := by
  induction h with
  | nil => rfl
  | cons x _ ih => simp [List.all_cons, ih]
  | swap x y l =>
    simp only [List.all_cons]
    cases f x <;> cases f y <;> simp
  | trans _ _ ih₁ ih₂ => exact ih₁.trans ih₂

/-- Substring containment as an explicit decomposition. -/
theorem containsSub_iff (n : List Char) :
    ∀ h : List Char,
      containsSub n h = true ↔ ∃ pre post, h = pre ++ n ++ post
  | [] => by
    simp only [containsSub, List.isEmpty_iff]
    constructor
    · rintro rfl
      exact ⟨[], [], rfl⟩
    · rintro ⟨pre, post, hp⟩
      cases pre <;> cases n <;> simp_all
  | c :: rest => by
    simp only [containsSub, Bool.or_eq_true]
    rw [containsSub_iff n rest]
    constructor
    · rintro (hpre | ⟨pre, post, rfl⟩)
      · rw [List.isPrefixOf_iff_prefix] at hpre
        obtain ⟨t, ht⟩ := hpre
        exact ⟨[], t, by simp [← ht]⟩
      · exact ⟨c :: pre, post, rfl⟩
    · rintro ⟨pre, post, hp⟩
      cases pre with
      | nil =>
        left
        rw [List.isPrefixOf_iff_prefix]
        exact ⟨post, by simpa using hp.symm⟩
      | cons x xs =>
        right
        simp only [List.cons_append, List.cons.injEq] at hp
        exact ⟨xs, post, hp.2⟩

/-! ### Concrete records and criteria shared by the engine claims -/

def pEm : Physician :=
  { npi := "1003000126", full_name := "Jane Doe",
    primary_specialty := some "Emergency Medicine", status := some "ACTIVE",
    phone := "555-0100", practice_address := "1 Main St",
    license_states := "CA, NY", license_states_list := ["CA", "NY"],
    multi_state_licensed := true, locum_candidate_flag := true,
    recruiter_priority_score := 85, locum_keywords := "locum tenens" }

def pPedEm : Physician :=
  { npi := "1003000127", full_name := "John Roe",
    primary_specialty := some "Pediatric emergency care",
    status := some "ACTIVE",
    phone := "555-0101", practice_address := "2 Main St",
    license_states := "TX", license_states_list := ["TX"],
    multi_state_licensed := false, locum_candidate_flag := false,
    recruiter_priority_score := 40, locum_keywords := "none" }

def pNoStates : Physician :=
  { npi := "1003000128", full_name := "Ann Poe",
    primary_specialty := some "Cardiology", status := some "ACTIVE",
    phone := "555-0102", practice_address := "3 Main St",
    license_states := " ", license_states_list := [],
    multi_state_licensed := false, locum_candidate_flag := false,
    recruiter_priority_score := 60, locum_keywords := "nan" }

def cER : FilterCriteria :=
  { specialty_filter := "Emergency Room Doctors",
    selected_states := ["CA", "NY", "TX"], active_only := false,
    multi_state_only := false, locum_only := false, min_score := 0 }

def cAll : FilterCriteria :=
  { specialty_filter := "All Doctors",
    selected_states := ["CA", "NY", "TX"], active_only := true,
    multi_state_only := false, locum_only := false, min_score := 20 }

/-! ### Claim C7 -/

/-- Claim C7: the pipeline's result is a sublist of its input — it keeps the
input's relative order, introduces no new rows and no duplicates (each row's
multiplicity can only shrink).  The embedding is a pure function on lists,
mirroring that the script only reassigns the local `df` and never writes a
record. -/
theorem c7_applyFilters_sublist (c : FilterCriteria) (l : List Physician) :
    List.Sublist (applyFilters c l) l ∧
    ∀ r : Physician, (applyFilters c l).count r ≤ l.count r := by
  have hs : List.Sublist (applyFilters c l) l := by
    rw [applyFilters, applyStages_eq_filter_all]
    exact List.filter_sublist l
  exact ⟨hs, fun r => hs.count_le r⟩

/-! ### Claim C8 -/

/-- Claim C8: the pipeline is idempotent for fixed criteria, and the six
stage filters may be applied in any order without changing the result,
because each stage is a pointwise predicate and the composition is a filter
by their conjunction. -/
theorem c8_idempotent_and_order_independent (c : FilterCriteria)
    (l : List Physician) :
    applyFilters c (applyFilters c l) = applyFilters c l ∧
    ∀ ps : List (Physician → Bool), ps.Perm (stagePreds c) →
      applyStages ps l = applyFilters c l := by
  constructor
  · rw [applyFilters, applyFilters, applyStages_eq_filter_all,
      applyStages_eq_filter_all, List.filter_filter]
    refine List.filter_congr (fun a _ => ?_)
    cases h : (stagePreds c).all (fun p => p a) <;> simp [h]
  · intro ps hp
    rw [applyFilters, applyStages_eq_filter_all, applyStages_eq_filter_all]
    exact List.filter_congr (fun a _ => all_of_perm hp _)

/-- Witness for C8: the six stages applied in reverse order at a concrete
record set give the pipeline's result. -/
theorem c8_idempotent_and_order_independent_witness :
    applyStages ((stagePreds cAll).reverse) [pEm, pPedEm, pNoStates] =
      applyFilters cAll [pEm, pPedEm, pNoStates] :=
  (c8_idempotent_and_order_independent cAll [pEm, pPedEm, pNoStates]).2
    ((stagePreds cAll).reverse) (List.reverse_perm _)

/-! ### Claim C5 -/

/-- Modelled from the spec's words, for comparison only: the distinct
specialties present in a record set. -/
def distinctSpecialties (l : List Physician) : List String :=
  (l.filterMap Physician.primary_specialty).dedup

/-- Modelled from the spec's words, for comparison only: keep exactly the
records whose `primary_specialty` equals the selected value. -/
def specialtyExactFilter (sel : String) (l : List Physician) :
    List Physician :=
  l.filter (fun r => r.primary_specialty == some sel)

/-- Claim C5 counterexample: the code's specialty stage is case-insensitive
substring containment of `'Emergency'`, not exact equality against a value
drawn from the distinct specialties.  `'Emergency Medicine'` and
`'Pediatric emergency care'` are both kept, yet no exact-match filter by
any specialty present in the set keeps both. -/
theorem c5_exact_match_cex :
    filter_data cER [pEm, pPedEm] = [pEm, pPedEm] ∧
    ∀ sel ∈ distinctSpecialties [pEm, pPedEm],
      specialtyExactFilter sel [pEm, pPedEm] ≠ [pEm, pPedEm] := by
  exact ⟨by decide, by decide⟩

/-- Claim C5 as amended: when the radio selects `'Emergency Room Doctors'`,
the stage keeps exactly the records whose `primary_specialty` contains the
substring `'Emergency'` case-insensitively (a missing specialty is
dropped); any other selection passes every record through. -/
theorem c5_specialty_stage_semantics (c : FilterCriteria)
    (l : List Physician) (r : Physician) :
    (c.specialty_filter = "Emergency Room Doctors" →
      (r ∈ filter_data c l ↔ r ∈ l ∧ ∃ s pre post,
        r.primary_specialty = some s ∧
        toLowerL s = pre ++ toLowerL "Emergency" ++ post)) ∧
    (c.specialty_filter ≠ "Emergency Room Doctors" → filter_data c l = l) := by
  constructor
  · intro h
    rw [filter_data, List.mem_filter]
    refine and_congr_right (fun _ => ?_)
    rw [specialtyPred, if_pos h]
    cases hs : r.primary_specialty with
    | none =>
      simp only [hs]
      constructor
      · intro hfalse; cases hfalse
      · rintro ⟨s, pre, post, hsome, _⟩; cases hsome
    | some s =>
      simp only [hs, pyContainsCI]
      rw [containsSub_iff]
      constructor
      · rintro ⟨pre, post, hdec⟩
        exact ⟨s, pre, post, rfl, hdec⟩
      · rintro ⟨s', pre, post, hsome, hdec⟩
        cases hsome
        exact ⟨pre, post, hdec⟩
  · intro h
    rw [filter_data]
    refine List.filter_eq_self.mpr (fun a _ => ?_)
    rw [specialtyPred, if_neg h]

/-- Witness for C5's amended statement at concrete inputs. -/
theorem c5_specialty_stage_semantics_witness :
    (pEm ∈ filter_data cER [pEm, pPedEm] ↔
      pEm ∈ [pEm, pPedEm] ∧ ∃ s pre post,
        pEm.primary_specialty = some s ∧
        toLowerL s = pre ++ toLowerL "Emergency" ++ post) ∧
    filter_data cAll [pEm, pPedEm] = [pEm, pPedEm] :=
  ⟨(c5_specialty_stage_semantics cER [pEm, pPedEm] pEm).1 rfl,
   (c5_specialty_stage_semantics cAll [pEm, pPedEm] pEm).2 (by decide)⟩

/-! ### Claim C6 -/

/-- Claim C6 counterexample: with the default selection of all known states,
a record whose `license_states_list` is empty is dropped (its exploded row
is NaN, `isin` is false), so the default is not a pass-through. -/
theorem c6_default_not_passthrough_cex :
    pNoStates ∈ [pEm, pNoStates] ∧
    stateFilter (allKnownStates [pEm, pNoStates]) [pEm, pNoStates] ≠
      [pEm, pNoStates] := by
  refine ⟨by decide, fun h => ?_⟩
  have hmem : pNoStates ∈
      stateFilter (allKnownStates [pEm, pNoStates]) [pEm, pNoStates] := by
    rw [h]; decide
  rw [stateFilter] at hmem
  have := (List.mem_filter.mp hmem).2
  simp [pNoStates] at this

/-- Claim C6 as amended: an empty selected-states set always yields the
empty result, and the default all-known-states selection keeps exactly the
records with at least one license state — it is a pass-through only when
every record's `license_states_list` is non-empty. -/
theorem c6_state_stage_semantics (l : List Physician) :
    stateFilter [] l = [] ∧
    stateFilter (allKnownStates l) l =
      l.filter (fun r => !r.license_states_list.isEmpty) := by
  constructor
  · rw [stateFilter]
    refine List.filter_eq_nil_iff.mpr (fun r _ => ?_)
    simp [List.any_eq_true]
  · rw [stateFilter]
    refine List.filter_congr (fun r hr => ?_)
    cases hl : r.license_states_list with
    | nil => simp [hl]
    | cons s rest =>
      have hmem : s ∈ allKnownStates l := by
        rw [allKnownStates, List.mem_mergeSort, List.mem_dedup,
          List.mem_flatten]
        exact ⟨r.license_states_list, List.mem_map_of_mem _ hr,
          by rw [hl]; exact List.mem_cons_self _ _⟩
      simp only [hl, List.isEmpty_cons, Bool.not_false]
      rw [List.any_eq_true]
      exact ⟨s, List.mem_cons_self _ _, by simpa using hmem⟩

/-! ### Claim C4 -/

/-- Claim C4 counterexample: the handler `if note.strip(): flagged[npi] =
note.strip()` does nothing on empty text, so an existing entry survives and
the flagged subset still lists the record — the claim's "removes any
existing entry" fails. -/
theorem c4_empty_note_keeps_entry_cex :
    setFlagNote (setFlagNote [] "1003000126" "keep me") "1003000126" "" =
      [("1003000126", "keep me")] ∧
    (flaggedData [pEm]
        (setFlagNote (setFlagNote [] "1003000126" "keep me")
          "1003000126" "")).map (fun q => q.1.npi) = ["1003000126"] := by
  exact ⟨by decide, by decide⟩

/-- Claim C4 as amended: whitespace-only or empty text makes the note
handler a no-op — the store is left exactly as it was (an existing entry
for `id` persists), and a subsequent flagged subset excludes `id` only when
the store had no entry for `id` in the first place. -/
theorem c4_empty_note_noop (st : Store) (k text : String)
    (l : List Physician) (h : pyStrip text = "") :
    setFlagNote st k text = st ∧
    (storeLookup st k = none →
      ∀ q ∈ flaggedData l (setFlagNote st k text), q.1.npi ≠ k) := by
  have h1 : setFlagNote st k text = st := by
    rw [setFlagNote, if_pos]
    rw [h]
    rfl
  refine ⟨h1, fun hnone q hq => ?_⟩
  rw [h1, flaggedData] at hq
  obtain ⟨r, hr, rfl⟩ := List.mem_map.mp hq
  intro hk
  have h2 := (List.mem_filter.mp hr).2
  rw [hk, hnone] at h2
  cases h2

/-- Witness for C4's amended statement at concrete inputs. -/
theorem c4_empty_note_noop_witness :
    setFlagNote [("1003000126", "keep me")] "1003000127" "   " =
      [("1003000126", "keep me")] ∧
    (storeLookup [("1003000126", "keep me")] "1003000127" = none →
      ∀ q ∈ flaggedData [pEm]
          (setFlagNote [("1003000126", "keep me")] "1003000127" "   "),
        q.1.npi ≠ "1003000127") :=
  c4_empty_note_noop [("1003000126", "keep me")] "1003000127" "   " [pEm]
    (by decide)

/-! ### Claim C9 -/

theorem dropWhile_idem {α : Type} (p : α → Bool) (l : List α) :
    (l.dropWhile p).dropWhile p = l.dropWhile p := by
  induction l with
  | nil => rfl
  | cons a t ih =>
    by_cases h : p a
    · simp [List.dropWhile_cons, h, ih]
    · simp [List.dropWhile_cons, h]

theorem head?_dropWhile_false {α : Type} (p : α → Bool) (l : List α) {a : α}
    (h : (l.dropWhile p).head? = some a) : p a = false := by
  have h2 := List.head?_dropWhile_not p l
  rw [h] at h2
  simpa using h2

/-- Python's `strip` is idempotent. -/
theorem stripList_idem (l : List Char) :
    stripList (stripList l) = stripList l := by
  have hpre : stripList l <+: l.dropWhile Char.isWhitespace := by
    have hx : (stripList l).reverse <:+
        (l.dropWhile Char.isWhitespace).reverse := by
      rw [stripList, List.reverse_reverse]
      exact List.dropWhile_suffix _
    exact List.reverse_suffix.mp hx
  have hB : (stripList l).dropWhile Char.isWhitespace = stripList l := by
    obtain ⟨t, ht⟩ := hpre
    cases hB2 : stripList l with
    | nil => rfl
    | cons a bs =>
      rw [hB2] at ht
      have hha : (l.dropWhile Char.isWhitespace).head? = some a := by
        rw [← ht]
        rfl
      have hfa : Char.isWhitespace a = false := head?_dropWhile_false _ _ hha
      simp [List.dropWhile_cons, hfa]
  show (((stripList l).dropWhile Char.isWhitespace).reverse.dropWhile
      Char.isWhitespace).reverse = stripList l
  rw [hB, stripList, List.reverse_reverse, dropWhile_idem]

/-- `s.strip()` is idempotent. -/
theorem pyStrip_idem (s : String) : pyStrip (pyStrip s) = pyStrip s := by
  show String.mk (stripList (stripList s.toList)) = pyStrip s
  rw [stripList_idem]
  rfl

/-- Dict assignment preserves the stored-note invariant when the new value
is itself a non-empty stripped string. -/
theorem storeInsert_inv {st : Store} (hinv : StoreInv st) {k v : String}
    (hv : v ≠ "") (hv2 : pyStrip v = v) : StoreInv (storeInsert st k v) := by
  induction st with
  | nil =>
    intro kv hkv
    simp only [storeInsert] at hkv
    rcases List.mem_cons.mp hkv with h | h
    · rw [h]
      exact ⟨hv, hv2⟩
    · cases h
  | cons kv' rest ih =>
    intro kv hkv
    simp only [storeInsert] at hkv
    by_cases hk : kv'.1 = k
    · rw [if_pos hk] at hkv
      rcases List.mem_cons.mp hkv with h | h
      · rw [h]
        exact ⟨hv, hv2⟩
      · exact hinv kv (List.mem_cons_of_mem _ h)
    · rw [if_neg hk] at hkv
      rcases List.mem_cons.mp hkv with h | h
      · rw [h]
        exact hinv kv' (List.mem_cons_self _ _)
      · exact ih (fun x hx => hinv x (List.mem_cons_of_mem _ hx)) kv h

/-- Claim C9: the store invariant — every stored value is a non-empty,
whitespace-trimmed note — is preserved by the note handler (whitespace-only
input never creates an entry), and a filtering pass leaves the store
component of the app state untouched. -/
theorem c9_store_invariant_preserved (st : Store) (k text : String)
    (hinv : StoreInv st) :
    StoreInv (setFlagNote st k text) ∧
    ∀ (c : FilterCriteria) (l : List Physician),
      (filterStep c (l, st)).2 = st := by
  constructor
  · rw [setFlagNote]
    by_cases h : (pyStrip text).isEmpty = true
    · rw [if_pos h]
      exact hinv
    · rw [if_neg h]
      refine storeInsert_inv hinv ?_ (pyStrip_idem text)
      intro heq
      exact h (by rw [heq]; rfl)
  · intro c l
    rfl

/-- Witness for C9 at a concrete store and note. -/
theorem c9_store_invariant_preserved_witness :
    StoreInv (setFlagNote [("1003000126", "prior note")] "1003000127"
      "  call tomorrow  ") ∧
    ∀ (c : FilterCriteria) (l : List Physician),
      (filterStep c (l, [("1003000126", "prior note")])).2 =
        [("1003000126", "prior note")] :=
  c9_store_invariant_preserved [("1003000126", "prior note")] "1003000127"
    "  call tomorrow  " (by decide)

/-! ### Claim C3 -/

theorem firstLine_append (pre rest : String)
    (h : ∀ c ∈ pre.toList, ¬ c = '\n') :
    firstLine (pre ++ "\n" ++ rest) = pre := by
  obtain ⟨d⟩ := pre
  rw [firstLine]
  have hl : ((String.mk d ++ "\n" ++ rest)).toList =
      d ++ '\n' :: rest.toList := by
    show ((String.mk d ++ "\n" ++ rest)).data = d ++ '\n' :: rest.data
    rw [String.data_append, String.data_append,
      (by decide : ("\n").data = ['\n'])]
    simp
  rw [hl, List.takeWhile_append_of_pos (by
    intro a ha
    simpa using h a ha)]
  simp [List.takeWhile_cons]

theorem firstLine_toCsv (header : List String) (rows : List (List String))
    (h : ∀ c ∈ (csvLine header).toList, ¬ c = '\n') :
    firstLine (toCsv header rows) = csvLine header := by
  have h0 : toCsv header rows = csvLine header ++ "\n" ++
      (rows.map csvLine).foldr (fun line acc => line ++ "\n" ++ acc) "" := rfl
  rw [h0]
  exact firstLine_append _ _ h

set_option maxRecDepth 8192 in
/-- Claim C3 counterexample: the downloaded CSV's header row lists all
thirteen columns of `flagged_data` — `npi` included — not the five display
columns; the restricted five-column projection is a different string. -/
theorem c3_export_all_columns_cex :
    firstLine (exportFlaggedCsv [pEm] [("1003000126", "priority lead")]) =
      String.intercalate "," exportColumns ∧
    exportFlaggedCsv [pEm] [("1003000126", "priority lead")] ≠
      claimedExportCsv [pEm] [("1003000126", "priority lead")] ∧
    "npi" ∉ displayColumns exportColumns := by
  exact ⟨by decide, by decide, by decide⟩

set_option maxRecDepth 8192 in
/-- Claim C3 as amended: the five-column restriction applies only to the
on-screen table (`display_columns`, line 237); the download button
serializes every column of `flagged_data` — the source columns, the derived
`license_states_list`, and `flag_note` — as UTF-8 CSV with a header row. -/
theorem c3_export_serializes_all_columns (l : List Physician) (st : Store) :
    firstLine (exportFlaggedCsv l st) = String.intercalate "," exportColumns ∧
    displayColumns exportColumns =
      ["full_name", "primary_specialty", "license_states",
       "recruiter_priority_score", "flag_note"] ∧
    exportFlaggedBytes l st = (exportFlaggedCsv l st).toUTF8 := by
  refine ⟨?_, by decide, rfl⟩
  rw [exportFlaggedCsv, firstLine_toCsv _ _ (by decide)]
  decide
